import Mathlib

/-!
Verification of the authentication / authorization middleware chain of the
dev-bd backend (`src/middlewares/auth.js`, the auth controller, and the
course handlers' ownership checks).

Modelling choices (shallow embedding):
* JavaScript strings that the code parses character-by-character (the
  `Authorization` header and the token) are modelled as `List Char`; string
  values only compared for equality (messages, roles) are Lean `String`s.
* `String.prototype.split(' ')` and `String.prototype.startsWith` are
  reimplemented at the character-list level (`splitChar`, `startsWithChars`)
  with the same semantics.
* The `jsonwebtoken` library is an external collaborator.  Its documented
  contract — verification succeeds exactly on a well-formed token signed with
  the same secret and not yet expired, and throws otherwise — is modelled by
  a concrete invertible wire format: the payload fields in decimal, separated
  by dots, followed by the signing secret (`signChars` / `decodeChars` /
  `jwtVerify`).  The model keeps every property the middleware relies on.
* Middlewares become pure functions from a request to an outcome: pass the
  (possibly mutated) request to the next stage, short-circuit with an
  `ErrorResponse`, or raise a JavaScript exception (`MwOutcome`).
* `await`ed storage lookups are collaborator functions passed as arguments;
  a rejected promise surfaces as `LookupResult.infraError` inside `protect`'s
  `try` block.
-/

namespace DevBd

/-! ### Character-level string helpers (JS `split` / `startsWith`) -/

/-- JS `pre.startsWith`-style check over character lists: `startsWithChars p s`
is `true` iff `p` is an initial segment of `s`. -/
def startsWithChars : List Char → List Char → Bool
  | [], _ => true
  | _ :: _, [] => false
  | p :: ps, c :: cs => p = c && startsWithChars ps cs

/-- JS `s.split(sep)` for a one-character separator: splits `s` at every
occurrence of `sep`, keeping empty fields (`"a "`.split gives `["a", ""]`). -/
def splitChar (sep : Char) : List Char → List (List Char)
  | [] => [[]]
  | c :: cs =>
    let r := splitChar sep cs
    if c = sep then [] :: r else (c :: r.headD []) :: r.tail

/-! ### Decimal rendering of naturals (for the token wire format)

Fuel-based so that every definition is structurally recursive and reduces in
the kernel; `fuel = n + 1` always suffices since the argument is divided by
ten at each step. -/

/-- The character for a single decimal digit. -/
def digitChar (d : Nat) : Char := Char.ofNat (48 + d)

/-- Decimal digits of `n`, most significant first, given enough fuel. -/
def natCharsAux : Nat → Nat → List Char
  | 0, _ => []
  | fuel + 1, n =>
    if n < 10 then [digitChar n]
    else natCharsAux fuel (n / 10) ++ [digitChar (n % 10)]

/-- Decimal digits of `n`, most significant first. -/
def natChars (n : Nat) : List Char := natCharsAux (n + 1) n

/-- Consume decimal digits into the accumulator until a dot, returning the
value and the remainder after the dot; fail on any other character. -/
def parseNatAux : Nat → List Char → Option (Nat × List Char)
  | _, [] => none
  | acc, c :: r =>
    if c = '.' then some (acc, r)
    else if c.isDigit then parseNatAux (acc * 10 + (c.toNat - 48)) r
    else none

/-! ### The jsonwebtoken collaborator model -/

/-- The claims a dev-bd token carries: `jwt.sign({ id }, secret, { expiresIn })`
produces a payload with the subject id, issued-at and expiry (times in the
model are all in milliseconds since the epoch). -/
structure JwtPayload where
  id : Nat
  iat : Nat
  exp : Nat
deriving DecidableEq, Repr

/-- Model of `jwt.sign`: the signed blob determines the payload and can only
be verified by a holder of the same secret. -/
def signChars (p : JwtPayload) (secret : List Char) : List Char :=
  natChars p.id ++ '.' :: (natChars p.iat ++ '.' :: (natChars p.exp ++ '.' :: secret))

/-- Inverse of the wire format: recover the payload and the embedded secret. -/
def decodeChars (s : List Char) : Option (JwtPayload × List Char) :=
  match parseNatAux 0 s with
  | none => none
  | some (i, s1) =>
    match parseNatAux 0 s1 with
    | none => none
    | some (ia, s2) =>
      match parseNatAux 0 s2 with
      | none => none
      | some (e, s3) => some (⟨i, ia, e⟩, s3)

/-- Outcome of `jwt.verify`: the decoded payload, or a thrown
`JsonWebTokenError` / `TokenExpiredError` (all thrown errors are
indistinguishable to `protect`, which catches them all). -/
inductive VerifyResult where
  | ok (p : JwtPayload)
  | err
deriving DecidableEq, Repr

/-- Model of `jwt.verify(token, secret)` at time `nowMs`: succeeds exactly
when the token is well-formed, was signed with `secret`, and has not
expired. -/
def jwtVerify (token secret : List Char) (nowMs : Nat) : VerifyResult :=
  match decodeChars token with
  | none => .err
  | some (p, sec) => if sec = secret ∧ nowMs < p.exp then .ok p else .err

/-! ### Requests, users and middleware outcomes -/

/-- A stored user record, as resolved by `User.findById` (the fields the
middleware chain reads: `_id` and `role`). -/
structure UserRec where
  id : Nat
  role : String
deriving DecidableEq, Repr

/-- Result of the `await User.findById(id)` collaborator call: a record,
`null` (no such user), or a rejected promise (storage/infrastructure
failure). -/
inductive LookupResult where
  | found (u : UserRec)
  | notFound
  | infraError
deriving DecidableEq, Repr

/-- `new ErrorResponse(message, statusCode)` from `utils/errorResponse`. -/
structure ErrorResponse where
  message : String
  statusCode : Nat
deriving DecidableEq, Repr

/-- The request fields the middleware chain touches:
`req.headers.authorization`, `req.cookies.token`, and `req.user`. -/
structure Request where
  authorization : Option (List Char)
  cookieToken : Option (List Char)
  user : Option UserRec
deriving DecidableEq, Repr

/-- What a middleware does with a request: `next()` (pass the possibly
mutated request on), `next(err)` (short-circuit with a handled error), or
throw a JavaScript exception (e.g. a `TypeError` from dereferencing
`undefined`). -/
inductive MwOutcome where
  | next (req : Request)
  | error (e : ErrorResponse)
  | exception
deriving DecidableEq, Repr

/-! ### The Token Verifier (`protect`) -/

/-- The generic message used by `protect` for credential failures. -/
def UNAUTHORIZED : String := "Not authorized to access this resource."

/-- The distinct message `protect` uses when the token's subject no longer
exists in storage. -/
def USER_GONE : String := "Token is not associated with a user anymore."

/-- The characters of the literal `'Bearer'`. -/
def bearerChars : List Char := ['B', 'e', 'a', 'r', 'e', 'r']

/-- Lines 20–25 of `auth.js`: `token` is `authorization.split(' ')[1]` when
the header is present (non-empty, hence truthy) and starts with `Bearer`;
otherwise `token` stays `undefined`. -/
def extractToken : Option (List Char) → Option (List Char)
  | none => none
  | some h =>
    if startsWithChars bearerChars h then (splitChar ' ' h)[1]? else none

/-- `exports.protect`: extract the bearer token, 401 if absent (JS `!token`
is also true for the empty string), verify it, look the subject up, 401 with
a distinct message if the user is gone, else attach the user and pass on.
The `try/catch` turns every thrown error — from `jwt.verify` or from a
rejected `User.findById` promise alike — into the generic 401. -/
def protect (findById : Nat → LookupResult) (secret : List Char) (nowMs : Nat)
    (req : Request) : MwOutcome :=
  match extractToken req.authorization with
  | none => .error ⟨UNAUTHORIZED, 401⟩
  | some [] => .error ⟨UNAUTHORIZED, 401⟩
  | some (c :: cs) =>
    match jwtVerify (c :: cs) secret nowMs with
    | .err => .error ⟨UNAUTHORIZED, 401⟩
    | .ok p =>
      match findById p.id with
      | .infraError => .error ⟨UNAUTHORIZED, 401⟩
      | .notFound => .error ⟨USER_GONE, 401⟩
      | .found u => .next { req with user := some u }

/-! ### The Role Authorizer (`authorize`) -/

/-- The 403 message used by `authorize`. -/
def PERM_MSG : String := "Certain permission is not met to access this resource."

/-- `exports.authorize = (...roles) => (req, res, next) => ...`: reading
`req.user.role` throws a `TypeError` when `req.user` is `undefined`;
otherwise 403 when the role is not in the allow-list, else `next()` with the
request untouched. -/
def authorize (roles : List String) (req : Request) : MwOutcome :=
  match req.user with
  | none => .exception
  | some u =>
    if roles.contains u.role then .next req
    else .error ⟨PERM_MSG, 403⟩

/-! ### Course handlers (ownership checks) -/

/-- A bootcamp record: the handlers read its `_id` and its owner `user`. -/
structure BootcampRec where
  id : Nat
  user : Nat
deriving DecidableEq, Repr

/-- A course record: the handlers read its `_id` and its owner `user`. -/
structure CourseRec where
  id : Nat
  user : Nat
  bootcamp : Nat
deriving DecidableEq, Repr

/-- Outcome of a resource handler: a successful JSON response with its HTTP
status, `next(err)`, or a thrown exception. -/
inductive HandlerOutcome where
  | ok (status : Nat)
  | error (e : ErrorResponse)
  | exception
deriving DecidableEq, Repr

/-- `exports.createCourse`: destructure `req.user` (throws when `undefined`),
404 when the bootcamp does not exist, 403 when the requester neither owns the
bootcamp nor is an admin, else create the course and respond 201. -/
def createCourse (findBootcamp : Nat → Option BootcampRec) (req : Request)
    (bootcampID : Nat) : HandlerOutcome :=
  match req.user with
  | none => .exception
  | some u =>
    match findBootcamp bootcampID with
    | none =>
      .error ⟨"Bootcamp with ID " ++ toString bootcampID ++ " is not found.", 404⟩
    | some b =>
      if b.user ≠ u.id ∧ u.role ≠ "admin" then
        .error ⟨"Permission denied to add a course to " ++ toString bootcampID ++ ".", 403⟩
      else .ok 201

/-- `exports.updateCourse`: destructure `req.user`, 404 when the course does
not exist, 403 when the requester neither owns the course nor is an admin,
else update and respond 200. -/
def updateCourse (findCourse : Nat → Option CourseRec) (req : Request)
    (courseID : Nat) : HandlerOutcome :=
  match req.user with
  | none => .exception
  | some u =>
    match findCourse courseID with
    | none =>
      .error ⟨"Course with ID " ++ toString courseID ++ " is not found.", 404⟩
    | some c =>
      if c.user ≠ u.id ∧ u.role ≠ "admin" then
        .error ⟨"Permission denied to update " ++ toString courseID ++ ".", 403⟩
      else .ok 200

/-- `exports.deleteCourse`: same gate as `updateCourse`, then remove the
course and respond 200. -/
def deleteCourse (findCourse : Nat → Option CourseRec) (req : Request)
    (courseID : Nat) : HandlerOutcome :=
  match req.user with
  | none => .exception
  | some u =>
    match findCourse courseID with
    | none =>
      .error ⟨"Course with ID " ++ toString courseID ++ " is not found.", 404⟩
    | some c =>
      if c.user ≠ u.id ∧ u.role ≠ "admin" then
        .error ⟨"Permission denied to delete " ++ toString courseID ++ ".", 403⟩
      else .ok 200

/-! ### The Token Issuer (`sendTokenResponse`) -/

/-- The environment configuration the issuer consumes: `JWT_SECRET`,
`JWT_COOKIE_EXPIRES` (a number of days), and whether `NODE_ENV` equals
`'Production'`. -/
structure Config where
  jwtSecret : List Char
  jwtCookieExpiresDays : Nat
  nodeEnvProduction : Bool
deriving DecidableEq, Repr

/-- A cookie as set by `res.cookie(name, value, option)`. -/
structure Cookie where
  name : String
  value : List Char
  expires : Nat
  httpOnly : Bool
  secure : Bool
deriving DecidableEq, Repr

/-- The response built by `sendTokenResponse`: status, the `token` cookie,
and the JSON body `{ success, token }`. -/
structure TokenResponse where
  statusCode : Nat
  cookie : Cookie
  bodySuccess : Bool
  bodyToken : List Char
deriving DecidableEq, Repr

/-- Modelled from the spec: `User.getSignedToken` lives in `models/User.js`,
which is not among the provided sources.  The spec describes the issuer as
producing "a signed session token embedding the user's identifier and an
expiry derived from a fixed configured lifetime", its configuration as the
single `tokenLifetimeDays` duration, and the cookie expiry as "matching the
token's"; so the token is signed over the user's id with issued-at `nowMs`
and expiry `nowMs` plus the configured lifetime in days. -/
def getSignedToken (u : UserRec) (cfg : Config) (nowMs : Nat) : List Char :=
  signChars
    ⟨u.id, nowMs, nowMs + cfg.jwtCookieExpiresDays * 24 * 3600 * 1000⟩
    cfg.jwtSecret

/-- `sendTokenResponse(user, statusCode, res)`: sign a token for the user,
set it as an HTTP-only cookie named `token` expiring
`Date.now() + JWT_COOKIE_EXPIRES * 24 * 3600 * 1000` (with `secure` only in
production), and send `{ success: true, token }`. -/
def sendTokenResponse (u : UserRec) (statusCode : Nat) (cfg : Config)
    (nowMs : Nat) : TokenResponse :=
  let token := getSignedToken u cfg nowMs
  { statusCode := statusCode
    cookie :=
      { name := "token"
        value := token
        expires := nowMs + cfg.jwtCookieExpiresDays * 24 * 3600 * 1000
        httpOnly := true
        secure := cfg.nodeEnvProduction }
    bodySuccess := true
    bodyToken := token }

/-! ### Lemmas about the wire format and the header parsing -/

theorem digit_props : ∀ d < 10,
    (digitChar d).isDigit = true ∧ digitChar d ≠ '.' ∧ digitChar d ≠ ' '
      ∧ (digitChar d).toNat = 48 + d := by
  decide

theorem natCharsAux_digits (fuel : Nat) :
    ∀ n, n < fuel → ∀ c ∈ natCharsAux fuel n, c.isDigit = true := by
  induction fuel with
  | zero => intro n h; omega
  | succ f ih =>
    intro n hn c hc
    simp only [natCharsAux] at hc
    by_cases h10 : n < 10
    · rw [if_pos h10] at hc
      simp only [List.mem_singleton] at hc
      subst hc
      exact (digit_props n h10).1
    · rw [if_neg h10] at hc
      rcases List.mem_append.mp hc with h1 | h2
      · exact ih (n / 10) (by omega) c h1
      · simp only [List.mem_singleton] at h2
        subst h2
        exact (digit_props (n % 10) (by omega)).1

theorem natChars_digits (n : Nat) : ∀ c ∈ natChars n, c.isDigit = true :=
  natCharsAux_digits (n + 1) n (Nat.lt_succ_self n)

theorem natChars_no_space (n : Nat) : ' ' ∉ natChars n := by
  intro h
  exact absurd (natChars_digits n ' ' h) (by decide)

theorem parseNatAux_natCharsAux (fuel : Nat) :
    ∀ n acc r, n < fuel →
      parseNatAux acc (natCharsAux fuel n ++ r)
        = parseNatAux (acc * 10 ^ (natCharsAux fuel n).length + n) r := by
  induction fuel with
  | zero => intro n acc r h; omega
  | succ f ih =>
    intro n acc r hn
    by_cases h10 : n < 10
    · have hd := digit_props n h10
      have e1 : natCharsAux (f + 1) n = [digitChar n] := by
        rw [natCharsAux, if_pos h10]
      rw [e1, List.singleton_append, parseNatAux, if_neg hd.2.1, if_pos hd.1,
        hd.2.2.2]
      have e2 : acc * 10 + (48 + n - 48)
          = acc * 10 ^ ([digitChar n] : List Char).length + n := by
        simp [pow_one]
      rw [e2]
    · have hd := digit_props (n % 10) (by omega)
      have e1 : natCharsAux (f + 1) n
          = natCharsAux f (n / 10) ++ [digitChar (n % 10)] := by
        rw [natCharsAux, if_neg h10]
      rw [e1, List.append_assoc, List.singleton_append,
        ih (n / 10) acc (digitChar (n % 10) :: r) (by omega),
        parseNatAux, if_neg hd.2.1, if_pos hd.1, hd.2.2.2]
      have e2 : (acc * 10 ^ (natCharsAux f (n / 10)).length + n / 10) * 10
            + (48 + n % 10 - 48)
          = acc * 10 ^ (natCharsAux f (n / 10) ++ [digitChar (n % 10)]).length + n := by
        rw [List.length_append, List.length_singleton, pow_succ, ← mul_assoc]
        generalize acc * 10 ^ (natCharsAux f (n / 10)).length = A
        omega
      rw [e2]

theorem parseNatAux_natChars_dot (n : Nat) (r : List Char) :
    parseNatAux 0 (natChars n ++ '.' :: r) = some (n, r) := by
  rw [natChars, parseNatAux_natCharsAux (n + 1) n 0 ('.' :: r) (Nat.lt_succ_self n),
    Nat.zero_mul, Nat.zero_add, parseNatAux, if_pos rfl]

theorem decodeChars_signChars (p : JwtPayload) (secret : List Char) :
    decodeChars (signChars p secret) = some (p, secret) := by
  simp only [signChars, decodeChars, parseNatAux_natChars_dot]

theorem signChars_no_space (p : JwtPayload) (secret : List Char)
    (hs : ' ' ∉ secret) : ' ' ∉ signChars p secret := by
  intro hm
  rw [signChars] at hm
  simp only [List.mem_append, List.mem_cons] at hm
  rcases hm with h | h | h | h | h | h | h
  · exact natChars_no_space _ h
  · exact absurd h (by decide)
  · exact natChars_no_space _ h
  · exact absurd h (by decide)
  · exact natChars_no_space _ h
  · exact absurd h (by decide)
  · exact hs h

theorem signChars_ne_nil (p : JwtPayload) (secret : List Char) :
    signChars p secret ≠ [] := by
  simp [signChars]

theorem splitChar_of_not_mem (sep : Char) (l : List Char) (h : sep ∉ l) :
    splitChar sep l = [l] := by
  induction l with
  | nil => rfl
  | cons c cs ih =>
    have hc : c ≠ sep := fun e => h (e ▸ List.mem_cons_self c cs)
    have hcs : sep ∉ cs := fun m => h (List.mem_cons_of_mem c m)
    simp only [splitChar, ih hcs, if_neg hc]
    rfl

theorem splitChar_append_cons (sep : Char) (x y : List Char) (hx : sep ∉ x) :
    splitChar sep (x ++ sep :: y) = x :: splitChar sep y := by
  induction x with
  | nil =>
    simp [splitChar]
  | cons c cs ih =>
    have hc : c ≠ sep := fun e => hx (e ▸ List.mem_cons_self c cs)
    have hcs : sep ∉ cs := fun m => hx (List.mem_cons_of_mem c m)
    simp only [List.cons_append, splitChar, List.append_eq, ih hcs, if_neg hc]
    rfl

theorem startsWithChars_append (p r : List Char) :
    startsWithChars p (p ++ r) = true := by
  induction p with
  | nil => rfl
  | cons c cs ih => simp [startsWithChars, ih]

theorem extractToken_bearer (t : List Char) (ht : ' ' ∉ t) :
    extractToken (some (bearerChars ++ ' ' :: t)) = some t := by
  rw [extractToken, if_pos (startsWithChars_append bearerChars (' ' :: t)),
    splitChar_append_cons ' ' bearerChars t (by decide),
    splitChar_of_not_mem ' ' t ht]
  rfl

/-- Shared success path of `protect`: extracted token verifies and the
subject resolves, so the user record is attached and the request passed on. -/
theorem protect_next_of (find : Nat → LookupResult) (secret : List Char)
    (nowMs : Nat) (req : Request) (t : List Char) (p : JwtPayload) (u : UserRec)
    (ht : extractToken req.authorization = some t)
    (hv : jwtVerify t secret nowMs = .ok p)
    (hf : find p.id = .found u) :
    protect find secret nowMs req = .next { req with user := some u } := by
  cases t with
  | nil => simp [jwtVerify, decodeChars, parseNatAux] at hv
  | cons c cs => simp [protect, ht, hv, hf]

/-! ### Concrete fixtures for counterexamples and witnesses -/

def sampleUser : UserRec := ⟨1, "user"⟩

def sampleSecret : List Char := ['s', 'e', 'c']

def samplePayload : JwtPayload := ⟨1, 0, 10⟩

def sampleToken : List Char := signChars samplePayload sampleSecret

def sampleAuthHeader : List Char := bearerChars ++ ' ' :: sampleToken

def findNone : Nat → LookupResult := fun _ => .notFound

def findSample : Nat → LookupResult :=
  fun i => if i = 1 then .found sampleUser else .notFound

def findInfra : Nat → LookupResult := fun _ => .infraError

/-- A request carrying only the given authorization header. -/
def reqWith (a : Option (List Char)) : Request := ⟨a, none, none⟩

/-! ### Claims -/

/-- C1, counterexample: `protect` does not use one generic message for every
credential failure — a verified token whose subject is gone is rejected with
401 but with a distinct message, unlike the missing-token rejection. -/
theorem C1_counterexample :
    protect findNone sampleSecret 5 (reqWith (some sampleAuthHeader))
        = .error ⟨USER_GONE, 401⟩
      ∧ protect findNone sampleSecret 5 (reqWith none)
        = .error ⟨UNAUTHORIZED, 401⟩
      ∧ USER_GONE ≠ UNAUTHORIZED := by
  decide

/-- C1, amended: every credential failure on a protected route is rejected
with HTTP 401; the missing-token and failed-verification (no token, bad
signature, malformed, expired) cases all share the same generic message,
while a verified token whose subject no longer exists is rejected with 401
and a distinct message. -/
theorem C1_amended (find : Nat → LookupResult) (secret : List Char)
    (nowMs : Nat) (req : Request) :
    (extractToken req.authorization = none ∨ extractToken req.authorization = some [] →
      protect find secret nowMs req = .error ⟨UNAUTHORIZED, 401⟩)
    ∧ (∀ t, extractToken req.authorization = some t →
        jwtVerify t secret nowMs = .err →
        protect find secret nowMs req = .error ⟨UNAUTHORIZED, 401⟩)
    ∧ (∀ t p, extractToken req.authorization = some t →
        jwtVerify t secret nowMs = .ok p → find p.id = .notFound →
        protect find secret nowMs req = .error ⟨USER_GONE, 401⟩) := by
  refine ⟨?_, ?_, ?_⟩
  · rintro (h | h) <;> simp [protect, h]
  · intro t ht hv
    cases t with
    | nil => simp [protect, ht]
    | cons c cs => simp [protect, ht, hv]
  · intro t p ht hv hf
    cases t with
    | nil => simp [jwtVerify, decodeChars, parseNatAux] at hv
    | cons c cs => simp [protect, ht, hv, hf]

theorem C1_amended_witness :
    protect findNone sampleSecret 5 (reqWith none) = .error ⟨UNAUTHORIZED, 401⟩
    ∧ protect findNone ['x'] 5 (reqWith (some sampleAuthHeader))
        = .error ⟨UNAUTHORIZED, 401⟩
    ∧ protect findNone sampleSecret 5 (reqWith (some sampleAuthHeader))
        = .error ⟨USER_GONE, 401⟩ :=
  ⟨(C1_amended findNone sampleSecret 5 (reqWith none)).1 (Or.inl (by decide)),
   (C1_amended findNone ['x'] 5 (reqWith (some sampleAuthHeader))).2.1
     sampleToken (by decide) (by decide),
   (C1_amended findNone sampleSecret 5 (reqWith (some sampleAuthHeader))).2.2
     sampleToken samplePayload (by decide) (by decide) (by decide)⟩

/-- C2: when no Identity Context is attached (`req.user` is `undefined`),
`authorize` fails closed — dereferencing `req.user.role` throws, so the
request is never passed through to the role-gated handler. -/
theorem C2_authorize_fails_closed (roles : List String) (req : Request)
    (h : req.user = none) :
    authorize roles req = .exception
      ∧ ∀ req2, authorize roles req ≠ .next req2 := by
  refine ⟨by simp [authorize, h], fun req2 => by simp [authorize, h]⟩

theorem C2_witness :
    authorize ["admin"] (reqWith none) = .exception :=
  (C2_authorize_fails_closed ["admin"] (reqWith none) rfl).1

/-- C3, counterexample: an infrastructure failure of the `User.findById`
lookup (a rejected promise that is not "no such user") is caught by
`protect`'s broad `catch` and reinterpreted as the generic 401, not
propagated as a 5xx. -/
theorem C3_counterexample :
    protect findInfra sampleSecret 5 (reqWith (some sampleAuthHeader))
      = .error ⟨UNAUTHORIZED, 401⟩ := by
  decide

/-- C3, amended: when the user-storage lookup fails with an infrastructure
error, `protect` catches it and rejects with 401 and the generic message —
the failure is reinterpreted as Unauthorized rather than surfacing as a
5xx-class error. -/
theorem C3_amended (find : Nat → LookupResult) (secret : List Char)
    (nowMs : Nat) (req : Request) (t : List Char) (p : JwtPayload)
    (ht : extractToken req.authorization = some t)
    (hv : jwtVerify t secret nowMs = .ok p)
    (hf : find p.id = .infraError) :
    protect find secret nowMs req = .error ⟨UNAUTHORIZED, 401⟩ := by
  cases t with
  | nil => simp [jwtVerify, decodeChars, parseNatAux] at hv
  | cons c cs => simp [protect, ht, hv, hf]

theorem C3_amended_witness :
    protect findInfra sampleSecret 5 (reqWith (some sampleAuthHeader))
      = .error ⟨UNAUTHORIZED, 401⟩ :=
  C3_amended findInfra sampleSecret 5 (reqWith (some sampleAuthHeader))
    sampleToken samplePayload (by decide) (by decide) (by decide)

/-- C4: a bearer token that verifies against the configured secret and whose
subject resolves to an existing user record makes `protect` attach that
record as `req.user` and pass the request through. -/
theorem C4_protect_attaches_identity (find : Nat → LookupResult)
    (secret : List Char) (nowMs : Nat) (req : Request) (t : List Char)
    (p : JwtPayload) (u : UserRec)
    (ht : extractToken req.authorization = some t)
    (hv : jwtVerify t secret nowMs = .ok p)
    (hf : find p.id = .found u) :
    protect find secret nowMs req = .next { req with user := some u } :=
  protect_next_of find secret nowMs req t p u ht hv hf

theorem C4_witness :
    protect findSample sampleSecret 5 (reqWith (some sampleAuthHeader))
      = .next { reqWith (some sampleAuthHeader) with user := some sampleUser } :=
  C4_protect_attaches_identity findSample sampleSecret 5
    (reqWith (some sampleAuthHeader)) sampleToken samplePayload sampleUser
    (by decide) (by decide) (by decide)

/-- C5: with an Identity Context attached, `authorize` passes the request
through exactly when the context's role is a member of the allowed set, and
otherwise rejects with 403 and the insufficient-permission message. -/
theorem C5_authorize_membership (roles : List String) (req : Request)
    (u : UserRec) (h : req.user = some u) :
    (u.role ∈ roles → authorize roles req = .next req)
    ∧ (u.role ∉ roles → authorize roles req = .error ⟨PERM_MSG, 403⟩) := by
  constructor <;> intro hr <;> simp [authorize, h, hr]

theorem C5_witness :
    authorize ["publisher", "admin"] (⟨none, none, some ⟨2, "admin"⟩⟩ : Request)
      = .next (⟨none, none, some ⟨2, "admin"⟩⟩ : Request)
    ∧ authorize ["publisher", "admin"] (⟨none, none, some ⟨3, "user"⟩⟩ : Request)
      = .error ⟨PERM_MSG, 403⟩ :=
  ⟨(C5_authorize_membership ["publisher", "admin"]
      (⟨none, none, some ⟨2, "admin"⟩⟩ : Request) ⟨2, "admin"⟩ rfl).1 (by decide),
   (C5_authorize_membership ["publisher", "admin"]
      (⟨none, none, some ⟨3, "user"⟩⟩ : Request) ⟨3, "user"⟩ rfl).2 (by decide)⟩

/-- Configuration used by the round-trip fixtures: one-day lifetime, not in
production. -/
def cfgSample : Config := ⟨['s', 'e', 'c'], 1, false⟩

def userSeven : UserRec := ⟨7, "publisher"⟩

def findSeven : Nat → LookupResult :=
  fun i => if i = 7 then .found userSeven else .notFound

/-- A request presenting exactly the token the issuer just produced. -/
def reqIssued : Request :=
  reqWith (some (bearerChars ++ ' ' :: (sendTokenResponse userSeven 200 cfgSample 3).bodyToken))

/-- C6: a token produced by the issuer for a user, presented immediately as
a bearer credential, verifies and resolves back to the same subject, so
`protect` attaches that user and passes the request through.  (The secret is
assumed space-free: the model's wire format embeds it verbatim, whereas a
real compact JWS never contains a space.) -/
theorem C6_issue_verify_roundtrip (find : Nat → LookupResult) (u : UserRec)
    (cfg : Config) (nowMs : Nat) (req : Request)
    (hsp : ' ' ∉ cfg.jwtSecret) (hdays : 0 < cfg.jwtCookieExpiresDays)
    (hf : find u.id = .found u)
    (ha : req.authorization
      = some (bearerChars ++ ' ' :: (sendTokenResponse u 200 cfg nowMs).bodyToken)) :
    protect find cfg.jwtSecret nowMs req = .next { req with user := some u } := by
  have htok : (sendTokenResponse u 200 cfg nowMs).bodyToken
      = signChars
          ⟨u.id, nowMs, nowMs + cfg.jwtCookieExpiresDays * 24 * 3600 * 1000⟩
          cfg.jwtSecret := rfl
  have hns : ' ' ∉ (sendTokenResponse u 200 cfg nowMs).bodyToken := by
    rw [htok]
    exact signChars_no_space _ _ hsp
  have hext : extractToken req.authorization
      = some ((sendTokenResponse u 200 cfg nowMs).bodyToken) := by
    rw [ha]
    exact extractToken_bearer _ hns
  have hv : jwtVerify ((sendTokenResponse u 200 cfg nowMs).bodyToken)
        cfg.jwtSecret nowMs
      = .ok ⟨u.id, nowMs, nowMs + cfg.jwtCookieExpiresDays * 24 * 3600 * 1000⟩ := by
    rw [htok, jwtVerify, decodeChars_signChars]
    refine if_pos ⟨rfl, ?_⟩
    show nowMs < nowMs + cfg.jwtCookieExpiresDays * 24 * 3600 * 1000
    omega
  exact protect_next_of find cfg.jwtSecret nowMs req _ _ u hext hv hf

theorem C6_witness :
    protect findSeven cfgSample.jwtSecret 3 reqIssued
      = .next { reqIssued with user := some userSeven } :=
  C6_issue_verify_roundtrip findSeven userSeven cfgSample 3 reqIssued
    (by decide) (by decide) (by decide) rfl

/-- C7: in the course handlers' ownership gates, `role = "admin"` is a
universal override — an admin is never rejected by the ownership check —
while a non-admin who does not own the targeted resource is rejected with
403. -/
theorem C7_ownership_admin_override (findB : Nat → Option BootcampRec)
    (findC : Nat → Option CourseRec) (req : Request) (u : UserRec)
    (b : BootcampRec) (c : CourseRec) (bid cid : Nat)
    (hu : req.user = some u) (hb : findB bid = some b) (hc : findC cid = some c) :
    (u.role = "admin" →
      createCourse findB req bid = .ok 201
      ∧ updateCourse findC req cid = .ok 200
      ∧ deleteCourse findC req cid = .ok 200)
    ∧ (u.role ≠ "admin" → b.user ≠ u.id →
        createCourse findB req bid
          = .error ⟨"Permission denied to add a course to " ++ toString bid ++ ".", 403⟩)
    ∧ (u.role ≠ "admin" → c.user ≠ u.id →
        updateCourse findC req cid
          = .error ⟨"Permission denied to update " ++ toString cid ++ ".", 403⟩
        ∧ deleteCourse findC req cid
          = .error ⟨"Permission denied to delete " ++ toString cid ++ ".", 403⟩) := by
  refine ⟨?_, ?_, ?_⟩
  · intro hadm
    refine ⟨?_, ?_, ?_⟩ <;>
      simp [createCourse, updateCourse, deleteCourse, hu, hb, hc, hadm]
  · intro hadm hown
    simp [createCourse, hu, hb, hadm, hown]
  · intro hadm hown
    constructor <;> simp [updateCourse, deleteCourse, hu, hc, hadm, hown]

def bootSample : BootcampRec := ⟨5, 9⟩

def courseSample : CourseRec := ⟨6, 9, 5⟩

def findBSample : Nat → Option BootcampRec :=
  fun i => if i = 5 then some bootSample else none

def findCSample : Nat → Option CourseRec :=
  fun i => if i = 6 then some courseSample else none

def reqAdmin : Request := ⟨none, none, some ⟨2, "admin"⟩⟩

def reqPlainUser : Request := ⟨none, none, some ⟨3, "user"⟩⟩

theorem C7_witness :
    createCourse findBSample reqAdmin 5 = .ok 201
    ∧ createCourse findBSample reqPlainUser 5
        = .error ⟨"Permission denied to add a course to " ++ toString 5 ++ ".", 403⟩ :=
  ⟨((C7_ownership_admin_override findBSample findCSample reqAdmin ⟨2, "admin"⟩
      bootSample courseSample 5 6 rfl (by decide) (by decide)).1 rfl).1,
   (C7_ownership_admin_override findBSample findCSample reqPlainUser ⟨3, "user"⟩
      bootSample courseSample 5 6 rfl (by decide) (by decide)).2.1
     (by decide) (by decide)⟩

/-- C8: a successful issuance sets an HTTP-only cookie named `token`
carrying the signed token, whose expiry is the issue time plus the
configured lifetime and equals the token's own embedded expiry, and sends
the JSON body `{ success: true, token }`. -/
theorem C8_sendTokenResponse_shape (u : UserRec) (cfg : Config) (nowMs sc : Nat) :
    (sendTokenResponse u sc cfg nowMs).cookie.name = "token"
    ∧ (sendTokenResponse u sc cfg nowMs).cookie.httpOnly = true
    ∧ (sendTokenResponse u sc cfg nowMs).cookie.value
        = (sendTokenResponse u sc cfg nowMs).bodyToken
    ∧ (sendTokenResponse u sc cfg nowMs).cookie.expires
        = nowMs + cfg.jwtCookieExpiresDays * 24 * 3600 * 1000
    ∧ (sendTokenResponse u sc cfg nowMs).bodySuccess = true
    ∧ (sendTokenResponse u sc cfg nowMs).statusCode = sc
    ∧ Option.map (fun q => q.1.exp)
        (decodeChars (sendTokenResponse u sc cfg nowMs).bodyToken)
      = some ((sendTokenResponse u sc cfg nowMs).cookie.expires) := by
  refine ⟨rfl, rfl, rfl, rfl, rfl, rfl, ?_⟩
  show Option.map _ (decodeChars (signChars _ _)) = _
  rw [decodeChars_signChars]
  rfl

/-- C9: when the attached Identity Context's role is in the allowed set,
`authorize` passes the very same request object on — no field of the request
is mutated, and the gate performs no other effect (it is a pure function in
the model). -/
theorem C9_authorize_frame (roles : List String) (req : Request) (u : UserRec)
    (hu : req.user = some u) (hr : u.role ∈ roles) :
    authorize roles req = .next req := by
  simp [authorize, hu, hr]

theorem C9_witness :
    authorize ["user"] (⟨none, none, some ⟨4, "user"⟩⟩ : Request)
      = .next (⟨none, none, some ⟨4, "user"⟩⟩ : Request) :=
  C9_authorize_frame ["user"] (⟨none, none, some ⟨4, "user"⟩⟩ : Request)
    ⟨4, "user"⟩ rfl (by decide)

/-- C10: `protect` reads only the `Authorization` header: a request whose
token sits in the `token` cookie but whose header does not start with
`Bearer` is treated as having no token and rejected 401, whatever the cookie
holds. -/
theorem C10_cookie_ignored (find : Nat → LookupResult) (secret : List Char)
    (nowMs : Nat) (req : Request) (tok : List Char)
    (_hc : req.cookieToken = some tok)
    (hh : ∀ h, req.authorization = some h → startsWithChars bearerChars h = false) :
    protect find secret nowMs req = .error ⟨UNAUTHORIZED, 401⟩
    ∧ ∀ ct, protect find secret nowMs { req with cookieToken := ct }
        = .error ⟨UNAUTHORIZED, 401⟩ := by
  have hext : extractToken req.authorization = none := by
    cases ha : req.authorization with
    | none => rfl
    | some h =>
      rw [extractToken, if_neg (by simp [hh h ha])]
  constructor
  · simp [protect, hext]
  · intro ct
    have hext2 : extractToken ({ req with cookieToken := ct } : Request).authorization
        = none := hext
    simp [protect, hext2]

def reqCookieOnly : Request := ⟨none, some sampleToken, none⟩

theorem C10_witness :
    protect findSample sampleSecret 5 reqCookieOnly
      = .error ⟨UNAUTHORIZED, 401⟩ :=
  (C10_cookie_ignored findSample sampleSecret 5 reqCookieOnly sampleToken rfl
    (fun _ hh => nomatch hh)).1

end DevBd
